import Mathlib

/-!
Shallow embedding of the elevator-movement web service in
src/dmaio/app/main.py, together with proofs of the specification claims.

The relational store is modelled as two lists of rows kept in rowid
(insertion) order.  SQL NULL timestamps are modelled by Option; timestamps
are Nat (seconds); Python ints are Int.  Each request handler becomes a
pure function of the store (and, for log_movement, of the server clock
reading during the request).
-/

/-- Elevator row (main.py, class Elevator, lines 17-28). -/
structure Elevator where
  id : Int
  name : String
  location : String
deriving Repr, DecidableEq

/-- Movement row (main.py, class Movement, lines 30-47).
departure_time is nullable (Option); arrival_time is NOT NULL with a
server-side default of the insertion time. -/
structure Movement where
  id : Int
  elevator_id : Int
  start_floor : Int
  end_floor : Int
  arrival_time : Nat
  departure_time : Option Nat
deriving Repr, DecidableEq

/-- Request body of POST /movements/ (main.py, class MovementCreate,
lines 55-59); departure_time defaults to null. -/
structure MovementCreate where
  elevator_id : Int
  start_floor : Int
  end_floor : Int
  departure_time : Option Nat
deriving Repr, DecidableEq

/-- The backing store: the two tables, each as a list of rows in rowid
(insertion) order. -/
structure DB where
  elevators : List Elevator
  movements : List Movement
deriving Repr, DecidableEq

/-- The row filter of the open-record query in log_movement (main.py
line 115): elevator_id matches and departure_time IS NULL. -/
def is_open_for (eid : Int) (m : Movement) : Bool :=
  m.elevator_id == eid && m.departure_time == none

/-- The open-record lookup of main.py line 115:
db.query(Movement).filter(elevator_id == eid).where(departure_time == None).first().
The query has no ORDER BY, so .first() yields the first matching row in
the implementation-defined scan order, modelled as rowid order. -/
def db_movement_match (ms : List Movement) (eid : Int) : Option Movement :=
  ms.find? (is_open_for eid)

/-- Effect on the movements table of the in-place update of main.py lines
116-120 (db_movement_match.departure_time = datetime.now(); commit): the
first open row for eid has its departure_time set to the clock reading;
every other row is untouched. -/
def close_first_open (now : Nat) (eid : Int) : List Movement → List Movement
  | [] => []
  | m :: rest =>
    if is_open_for eid m then { m with departure_time := some now } :: rest
    else m :: close_first_open now eid rest

/-- SQLite rowid autoincrement for the movements table: one more than the
largest id present. -/
def next_id (ms : List Movement) : Int :=
  (ms.map Movement.id).foldr max 0 + 1

/-- POST /movements/ handler (main.py, log_movement, lines 103-125).
now is the server clock reading during the request: it is written into the
closed row (datetime.now(), line 118) and becomes the new row's
arrival_time (the func.now() column default of line 46, evaluated at
insert).  Returns the updated store and the row returned to the client
(db.refresh(db_movement) of line 124 reloads the generated id and the
arrival_time default). -/
def log_movement (db : DB) (mc : MovementCreate) (now : Nat) : DB × Movement :=
  let ms := db.movements
  let ms1 :=
    if (db_movement_match ms mc.elevator_id).isSome then
      close_first_open now mc.elevator_id ms
    else ms
  let new_row : Movement :=
    { id := next_id ms
      elevator_id := mc.elevator_id
      start_floor := mc.start_floor
      end_floor := mc.end_floor
      arrival_time := now
      departure_time := mc.departure_time }
  ({ db with movements := ms1 ++ [new_row] }, new_row)

/-- GET /elevators handler (main.py lines 76-85). -/
def get_elevators (db : DB) : List Elevator :=
  db.elevators

/-- GET /movements/ handler (main.py lines 127-136). -/
def get_movements (db : DB) : List Movement :=
  db.movements

/-- GET /movements/{elevator_id} handler (main.py lines 138-147); the
Python source reuses the name get_movements for it, which Lean does not
allow, so it carries the spec's name list_movements_for_elevator here.
Returns db.query(Movement).where(Movement.elevator_id == eid).all(). -/
def list_movements_for_elevator (db : DB) (eid : Int) : List Movement :=
  db.movements.filter (fun m => m.elevator_id == eid)

/-- GET /resting_elevators handler (main.py lines 149-161):
db.query(Movement).where(Movement.departure_time == None).all(). -/
def get_resting_elevators (db : DB) : List Movement :=
  db.movements.filter (fun m => m.departure_time == none)

/-- Grouping key of the GET /ml_data/ query (main.py lines 182-184):
GROUP BY start_floor, end_floor. -/
def floor_pair (m : Movement) : Int × Int :=
  (m.start_floor, m.end_floor)

/-- Row filter of the GET /ml_data/ query (main.py line 184): WHERE
departure_time IS NOT NULL.  SQLAlchemy's .where adds to the WHERE clause
even when written after .group_by, so it filters rows before grouping. -/
def is_closed (m : Movement) : Bool :=
  m.departure_time != none

/-- Membership of a row in the (start_floor, end_floor) group k. -/
def in_group (k : Int × Int) (m : Movement) : Bool :=
  floor_pair m == k

/-- The distinct grouping keys of the GET /ml_data/ query.  SQLite leaves
the output order of GROUP BY unspecified; the model fixes one order via
List.dedup. -/
def ml_keys (rows : List Movement) : List (Int × Int) :=
  (rows.map floor_pair).dedup

/-- func.count(Movement.elevator_id) per group (main.py line 180):
elevator_id is NOT NULL, so the count is the number of rows in the group. -/
def ml_group_count (rows : List Movement) (k : Int × Int) : Nat :=
  (rows.filter (in_group k)).length

/-- The row supplying the non-aggregated columns (arrival_time,
departure_time, elevator_id) of group k.  SQLite takes them from an
arbitrary row of the group; the model fixes the first row of the group in
rowid order. -/
def ml_representative (rows : List Movement) (k : Int × Int) : Option Movement :=
  (rows.filter (in_group k)).head?

/-- One entry of the training_data list (main.py lines 187-190). -/
structure TrainingEntry where
  requested_floor : Int
  destination_floor : Int
  count : Nat
deriving Repr, DecidableEq

/-- One entry of the elapsed_data list (main.py lines 191-194). -/
structure ElapsedEntry where
  start_floor : Int
  end_floor : Int
  elevator_id : Int
  elapsed_time_secs : Int
deriving Repr, DecidableEq

/-- elapsed_time (secs) of a row: departure_time minus arrival_time
(main.py line 192, d[3]-d[2]).  Only evaluated on closed rows, where
departure_time is present; getD's fallback is never reached. -/
def elapsed_of (m : Movement) : Int :=
  ((m.departure_time.getD 0 : Nat) : Int) - ((m.arrival_time : Nat) : Int)

/-- The training_data entry produced for group k (main.py lines 187-190):
the key pair and the group's aggregate count. -/
def training_entry_of (rows : List Movement) (k : Int × Int) : TrainingEntry :=
  { requested_floor := k.1
    destination_floor := k.2
    count := ml_group_count rows k }

/-- The elapsed_data entry produced for group k (main.py lines 191-194):
key pair, elevator_id and elapsed time all read off the group's
representative row.  The none branch is unreachable: every key of ml_keys
has at least one row in its group. -/
def elapsed_entry_of (rows : List Movement) (k : Int × Int) : ElapsedEntry :=
  match ml_representative rows k with
  | some m =>
    { start_floor := m.start_floor
      end_floor := m.end_floor
      elevator_id := m.elevator_id
      elapsed_time_secs := elapsed_of m }
  | none =>
    { start_floor := k.1
      end_floor := k.2
      elevator_id := 0
      elapsed_time_secs := 0 }

/-- GET /ml_data/ handler (main.py, get_ml_data, lines 163-196): one
grouped query over closed movements yields both output lists, built from
the same key list, hence positionally aligned; the count comes from the
aggregate, the elapsed figure from the group's representative row. -/
def get_ml_data (db : DB) : List TrainingEntry × List ElapsedEntry :=
  let rows := db.movements.filter is_closed
  let keys := ml_keys rows
  (keys.map (training_entry_of rows), keys.map (elapsed_entry_of rows))

/-- A database session handle as seen by get_db (main.py lines 63-74);
closed records whether db.close() has run. -/
structure SessionHandle where
  closed : Bool
deriving Repr, DecidableEq

/-- Outcome of one request dispatched through the get_db dependency
(main.py lines 63-74): a fresh session is created, the handler body runs
and either returns a response or raises (modelled by Except), and the
generator's try/finally runs db.close() on both paths before the request
finishes.  Returns the handler outcome and the final session state. -/
def run_with_db {ε α : Type} (handler : SessionHandle → Except ε α) :
    Except ε α × SessionHandle :=
  let db : SessionHandle := { closed := false }
  match handler db with
  | Except.ok a => (Except.ok a, { db with closed := true })
  | Except.error e => (Except.error e, { db with closed := true })

/-! Helper lemmas about close_first_open and the open-record query. -/

theorem close_first_open_of_match_none {ms : List Movement} {eid : Int} (now : Nat)
    (h : db_movement_match ms eid = none) :
    close_first_open now eid ms = ms := by
  induction ms with
  | nil => rfl
  | cons m rest ih =>
    unfold db_movement_match at h
    by_cases hm : is_open_for eid m
    · simp [List.find?_cons_of_pos, hm] at h
    · rw [List.find?_cons_of_neg _ (by simp [hm])] at h
      simp [close_first_open, hm, ih h]

theorem close_first_open_of_match_some {ms : List Movement} {eid : Int} {m : Movement}
    (now : Nat) (h : db_movement_match ms eid = some m) :
    ∃ i, ms[i]? = some m ∧ is_open_for eid m = true ∧
      close_first_open now eid ms = ms.set i { m with departure_time := some now } := by
  induction ms with
  | nil => simp [db_movement_match] at h
  | cons m0 rest ih =>
    unfold db_movement_match at h
    by_cases hm : is_open_for eid m0
    · rw [List.find?_cons_of_pos _ hm] at h
      obtain rfl : m0 = m := by simpa using h
      exact ⟨0, by simp, hm, by simp [close_first_open, hm]⟩
    · rw [List.find?_cons_of_neg _ (by simp [hm])] at h
      obtain ⟨i, hget, hopen, hclose⟩ := ih h
      exact ⟨i + 1, by simpa using hget, hopen,
        by simp [close_first_open, hm, hclose]⟩

theorem length_close_first_open (now : Nat) (eid : Int) (ms : List Movement) :
    (close_first_open now eid ms).length = ms.length := by
  induction ms with
  | nil => rfl
  | cons m rest ih =>
    by_cases hm : is_open_for eid m <;> simp [close_first_open, hm, ih]

/-- The row written by the close step is no longer open: its
departure_time is some now. -/
theorem is_open_for_closed (eid0 : Int) (m : Movement) (now : Nat) :
    is_open_for eid0 { m with departure_time := some now } = false := by
  simp [is_open_for]

/-- Closing the first open row for eid removes exactly the head of the
open-row filter for eid. -/
theorem filter_close_first_open_self {ms : List Movement} {eid : Int} {m : Movement}
    (now : Nat) (h : db_movement_match ms eid = some m) :
    (close_first_open now eid ms).filter (is_open_for eid) =
      (ms.filter (is_open_for eid)).tail := by
  induction ms with
  | nil => simp [db_movement_match] at h
  | cons m0 rest ih =>
    unfold db_movement_match at h
    by_cases hm : is_open_for eid m0
    · rw [List.find?_cons_of_pos _ hm] at h
      obtain rfl : m0 = m := by simpa using h
      have hcl := is_open_for_closed eid m0 now
      rw [show close_first_open now eid (m0 :: rest) =
            { m0 with departure_time := some now } :: rest by
          simp [close_first_open, hm]]
      rw [List.filter_cons, List.filter_cons]
      simp [hcl, hm]
    · rw [List.find?_cons_of_neg _ (by simp [hm])] at h
      simp [close_first_open, hm, List.filter_cons, ih h]

/-- Closing an open row for eid leaves the open-row filter of every other
elevator untouched. -/
theorem filter_close_first_open_other (now : Nat) (eid eid2 : Int)
    (ms : List Movement) (hne : eid2 ≠ eid) :
    (close_first_open now eid ms).filter (is_open_for eid2) =
      ms.filter (is_open_for eid2) := by
  induction ms with
  | nil => rfl
  | cons m0 rest ih =>
    by_cases hm : is_open_for eid m0
    · have heid : m0.elevator_id = eid := by
        have := hm
        unfold is_open_for at this
        exact by simpa using (Bool.and_eq_true_iff.mp this).1
      have h2 : is_open_for eid2 m0 = false := by
        unfold is_open_for
        simp [heid, hne, Ne.symm hne]
      have h2' : is_open_for eid2 { m0 with departure_time := some now } = false := by
        unfold is_open_for
        simp [heid, hne, Ne.symm hne]
      simp [close_first_open, hm, List.filter_cons, h2, h2']
    · simp [close_first_open, hm, List.filter_cons, ih]

/-! Helper lemmas about the grouped aggregation of GET /ml_data/. -/

theorem in_group_iff (k : Int × Int) (m : Movement) :
    in_group k m = true ↔ floor_pair m = k := by
  unfold in_group
  exact beq_iff_eq

theorem length_filter_add_length_filter_not {α : Type} (p : α → Bool) (l : List α) :
    (l.filter p).length + (l.filter fun a => !(p a)).length = l.length := by
  induction l with
  | nil => rfl
  | cons a rest ih =>
    by_cases ha : p a <;>
      simp [List.filter_cons, ha, Nat.add_assoc, Nat.add_left_comm, ih, Nat.succ_eq_add_one]
    · omega
    · omega

/-- Summing the group sizes over a duplicate-free list of keys covering
every row partitions the rows: the counts add up to the number of rows. -/
theorem sum_group_counts :
    ∀ (ks : List (Int × Int)) (rows : List Movement), ks.Nodup →
      (∀ m ∈ rows, floor_pair m ∈ ks) →
      (ks.map fun k => (rows.filter (in_group k)).length).sum = rows.length := by
  intro ks
  induction ks with
  | nil =>
    intro rows _ hcov
    have : rows = [] := by
      apply List.eq_nil_iff_forall_not_mem.mpr
      intro m hm
      exact absurd (hcov m hm) (List.not_mem_nil _)
    simp [this]
  | cons k ks ih =>
    intro rows hnd hcov
    have hk : k ∉ ks := (List.nodup_cons.mp hnd).1
    have hnd2 : ks.Nodup := (List.nodup_cons.mp hnd).2
    have htail : ∀ k2 ∈ ks,
        rows.filter (in_group k2) =
          (rows.filter fun m => !(in_group k m)).filter (in_group k2) := by
      intro k2 hk2
      rw [List.filter_filter]
      apply List.filter_congr
      intro m _
      by_cases h2 : in_group k2 m
      · have hfp : floor_pair m = k2 := (in_group_iff k2 m).mp h2
        have hne : in_group k m = false := by
          rw [show (false : Bool) = false from rfl]
          apply Bool.eq_false_iff.mpr
          intro hkm
          have : floor_pair m = k := (in_group_iff k m).mp hkm
          exact hk (this ▸ hfp ▸ hk2)
        simp [h2, hne]
      · simp [Bool.eq_false_iff.mpr h2]
    have hmapeq :
        (ks.map fun k2 => (rows.filter (in_group k2)).length) =
          (ks.map fun k2 =>
            (((rows.filter fun m => !(in_group k m)).filter (in_group k2)).length)) := by
      apply List.map_congr_left
      intro k2 hk2
      rw [htail k2 hk2]
    have hcov2 : ∀ m ∈ (rows.filter fun m => !(in_group k m)), floor_pair m ∈ ks := by
      intro m hm
      obtain ⟨hmem, hnot⟩ := List.mem_filter.mp hm
      have : floor_pair m ∈ k :: ks := hcov m hmem
      rcases List.mem_cons.mp this with heq | htl
      · exfalso
        have : in_group k m = true := (in_group_iff k m).mpr heq
        simp [this] at hnot
      · exact htl
    rw [List.map_cons, List.sum_cons, hmapeq, ih _ hnd2 hcov2,
      length_filter_add_length_filter_not]

/-! Helper lemmas about log_movement. -/

theorem log_movement_movements (db : DB) (mc : MovementCreate) (now : Nat) :
    (log_movement db mc now).1.movements =
      (if (db_movement_match db.movements mc.elevator_id).isSome then
        close_first_open now mc.elevator_id db.movements
      else db.movements) ++ [(log_movement db mc now).2] :=
  rfl

theorem log_movement_returned (db : DB) (mc : MovementCreate) (now : Nat) :
    (log_movement db mc now).2 =
      { id := next_id db.movements
        elevator_id := mc.elevator_id
        start_floor := mc.start_floor
        end_floor := mc.end_floor
        arrival_time := now
        departure_time := mc.departure_time } :=
  rfl

theorem log_movement_length (db : DB) (mc : MovementCreate) (now : Nat) :
    (log_movement db mc now).1.movements.length = db.movements.length + 1 := by
  rw [log_movement_movements]
  by_cases hm : (db_movement_match db.movements mc.elevator_id).isSome <;>
    simp [hm, length_close_first_open]

theorem log_movement_snoc (db : DB) (mc : MovementCreate) (now : Nat) :
    (log_movement db mc now).1.movements[db.movements.length]? =
      some (log_movement db mc now).2 := by
  rw [log_movement_movements]
  by_cases hm : (db_movement_match db.movements mc.elevator_id).isSome
  · rw [if_pos hm,
      show db.movements.length =
          (close_first_open now mc.elevator_id db.movements).length from
        (length_close_first_open now mc.elevator_id db.movements).symm]
    exact List.getElem?_concat_length _ _
  · rw [if_neg hm]
    exact List.getElem?_concat_length _ _

theorem is_open_for_departure_none {eid : Int} {m : Movement}
    (h : is_open_for eid m = true) : m.departure_time = none := by
  unfold is_open_for at h
  simpa using (Bool.and_eq_true_iff.mp h).2

theorem is_open_for_elevator_id {eid : Int} {m : Movement}
    (h : is_open_for eid m = true) : m.elevator_id = eid := by
  unfold is_open_for at h
  simpa using (Bool.and_eq_true_iff.mp h).1

-- Concrete inputs used by the witness theorems below.

/-- Witness fixture: a single open movement row for elevator 1. -/
def m0 : Movement :=
  { id := 1, elevator_id := 1, start_floor := 1, end_floor := 5,
    arrival_time := 10, departure_time := none }

/-- Witness fixture: one elevator, one open movement. -/
def db0 : DB :=
  { elevators := [{ id := 1, name := "A", location := "Lobby" }],
    movements := [m0] }

/-- Witness fixture: the request body of a second movement for elevator 1,
departure_time omitted. -/
def mc0 : MovementCreate :=
  { elevator_id := 1, start_floor := 5, end_floor := 2, departure_time := none }

/-! The claims. -/

/-- Claim C1: log_movement closes the open row (if any) by writing the
current server time into its departure_time and persisting that update,
then inserts exactly one new Movement row carrying the request's fields
(departure_time staying null when omitted) and returns that new row; with
no open row, the update step is skipped and only the insert happens. -/
theorem c1_log_movement_effect (db : DB) (mc : MovementCreate) (now : Nat) :
    ((log_movement db mc now).2.elevator_id = mc.elevator_id ∧
     (log_movement db mc now).2.start_floor = mc.start_floor ∧
     (log_movement db mc now).2.end_floor = mc.end_floor ∧
     (log_movement db mc now).2.departure_time = mc.departure_time) ∧
    ((log_movement db mc now).1.movements.length = db.movements.length + 1 ∧
     (log_movement db mc now).1.movements[db.movements.length]? =
       some (log_movement db mc now).2) ∧
    (∀ m, db_movement_match db.movements mc.elevator_id = some m →
      ∃ i : Nat, db.movements[i]? = some m ∧ m.departure_time = none ∧
        (log_movement db mc now).1.movements =
          db.movements.set i { m with departure_time := some now } ++
            [(log_movement db mc now).2]) ∧
    (db_movement_match db.movements mc.elevator_id = none →
      (log_movement db mc now).1.movements =
        db.movements ++ [(log_movement db mc now).2]) := by
  have hmv := log_movement_movements db mc now
  refine ⟨⟨rfl, rfl, rfl, rfl⟩,
    ⟨log_movement_length db mc now, log_movement_snoc db mc now⟩, ?_, ?_⟩
  · intro m hm
    obtain ⟨i, hi, hopen, hclose⟩ := close_first_open_of_match_some now hm
    refine ⟨i, hi, is_open_for_departure_none hopen, ?_⟩
    have hsome : (db_movement_match db.movements mc.elevator_id).isSome = true := by
      rw [hm]
      rfl
    rw [hmv, if_pos hsome, hclose]
  · intro h
    rw [hmv, if_neg (by simp [h])]

/-- Witness for C1 on the concrete fixture: the open row m0 is matched,
its departure_time is set to the call time, and the new row is appended. -/
theorem c1_log_movement_effect_witness :
    db_movement_match db0.movements mc0.elevator_id = some m0 ∧
    ∃ i : Nat, db0.movements[i]? = some m0 ∧ m0.departure_time = none ∧
      (log_movement db0 mc0 20).1.movements =
        db0.movements.set i { m0 with departure_time := some 20 } ++
          [(log_movement db0 mc0 20).2] :=
  ⟨by decide, (c1_log_movement_effect db0 mc0 20).2.2.1 m0 (by decide)⟩

/-- The intended invariant of spec §3: at most one open Movement row
(departure_time null) per elevator_id. -/
def open_invariant (ms : List Movement) : Prop :=
  ∀ eid : Int, (ms.filter (is_open_for eid)).length ≤ 1

/-- A one-element list has at most one row passing any filter. -/
theorem length_filter_singleton_le_one {α : Type} (p : α → Bool) (a : α) :
    (List.filter p [a]).length ≤ 1 := by
  by_cases h : p a <;> simp [List.filter_cons, h]

/-- Claim C2: log_movement preserves the at-most-one-open-row-per-elevator
invariant, and when a second movement with departure_time omitted is
logged while an open record exists, the newly inserted row becomes the
elevator's sole open record. -/
theorem c2_open_invariant_preserved (db : DB) (mc : MovementCreate) (now : Nat)
    (hinv : open_invariant db.movements) :
    open_invariant (log_movement db mc now).1.movements ∧
    (mc.departure_time = none →
      db_movement_match db.movements mc.elevator_id ≠ none →
      (log_movement db mc now).1.movements.filter (is_open_for mc.elevator_id) =
        [(log_movement db mc now).2]) := by
  have hmv := log_movement_movements db mc now
  have hclose_nil : ∀ m, db_movement_match db.movements mc.elevator_id = some m →
      (close_first_open now mc.elevator_id db.movements).filter
        (is_open_for mc.elevator_id) = [] := by
    intro m hm
    have htail := filter_close_first_open_self now hm
    have hmem : m ∈ db.movements.filter (is_open_for mc.elevator_id) :=
      List.mem_filter.mpr ⟨List.mem_of_find?_eq_some hm, List.find?_some hm⟩
    have hge : 1 ≤ (db.movements.filter (is_open_for mc.elevator_id)).length :=
      List.length_pos.mpr (List.ne_nil_of_mem hmem)
    have hle := hinv mc.elevator_id
    apply List.length_eq_zero.mp
    rw [htail, List.length_tail]
    omega
  constructor
  · intro eid2
    rw [hmv, List.filter_append]
    by_cases heq : eid2 = mc.elevator_id
    · subst heq
      cases hmm : db_movement_match db.movements mc.elevator_id with
      | none =>
        rw [if_neg (by simp [hmm])]
        have hnil : db.movements.filter (is_open_for mc.elevator_id) = [] := by
          apply List.filter_eq_nil_iff.mpr
          intro x hx
          have := List.find?_eq_none.mp hmm x hx
          simpa using this
        rw [hnil]
        simpa using length_filter_singleton_le_one (is_open_for mc.elevator_id) _
      | some m =>
        rw [if_pos (by simp [hmm]), hclose_nil m hmm]
        simpa using length_filter_singleton_le_one (is_open_for mc.elevator_id) _
    · have hnew : is_open_for eid2 (log_movement db mc now).2 = false := by
        rw [log_movement_returned]
        unfold is_open_for
        simp [Ne.symm heq]
      have hpre :
          (if (db_movement_match db.movements mc.elevator_id).isSome then
            close_first_open now mc.elevator_id db.movements
          else db.movements).filter (is_open_for eid2) =
            db.movements.filter (is_open_for eid2) := by
        by_cases hm : (db_movement_match db.movements mc.elevator_id).isSome
        · rw [if_pos hm]
          exact filter_close_first_open_other now mc.elevator_id eid2 db.movements heq
        · rw [if_neg hm]
      rw [hpre]
      have := hinv eid2
      simp [List.filter_cons, hnew]
      omega
  · intro hdep hne
    cases hmm : db_movement_match db.movements mc.elevator_id with
    | none => exact absurd hmm hne
    | some m =>
      rw [hmv, List.filter_append, if_pos (by simp [hmm]), hclose_nil m hmm]
      have hnew : is_open_for mc.elevator_id (log_movement db mc now).2 = true := by
        rw [log_movement_returned]
        unfold is_open_for
        simp [hdep]
      simp [List.filter_cons, hnew]

/-- The witness fixture satisfies the invariant: its single row is open
for elevator 1 only. -/
theorem db0_open_invariant : open_invariant db0.movements := by
  intro eid
  exact length_filter_singleton_le_one (is_open_for eid) m0

/-- Witness for C2 on the concrete fixture: after logging a second
movement with departure_time omitted, the new row is the sole open record
of elevator 1. -/
theorem c2_open_invariant_preserved_witness :
    (log_movement db0 mc0 20).1.movements.filter (is_open_for mc0.elevator_id) =
      [(log_movement db0 mc0 20).2] :=
  (c2_open_invariant_preserved db0 mc0 20 db0_open_invariant).2 rfl (by decide)

/-- Claim C3: the row closed by log_movement receives a departure_time at
or after its own arrival_time.  The hypothesis is clock monotonicity: every
stored arrival_time was a server clock reading taken no later than the
current one. -/
theorem c3_departure_not_before_arrival (db : DB) (mc : MovementCreate) (now : Nat)
    (hclock : ∀ m ∈ db.movements, m.arrival_time ≤ now) :
    ∀ m, db_movement_match db.movements mc.elevator_id = some m →
      m.arrival_time ≤ now ∧
      ∃ i : Nat, db.movements[i]? = some m ∧
        (log_movement db mc now).1.movements[i]? =
          some { m with departure_time := some now } := by
  intro m hm
  refine ⟨hclock m (List.mem_of_find?_eq_some hm), ?_⟩
  obtain ⟨i, hi, _, hclose⟩ := close_first_open_of_match_some now hm
  obtain ⟨hlt, _⟩ := List.getElem?_eq_some_iff.mp hi
  refine ⟨i, hi, ?_⟩
  rw [log_movement_movements, if_pos (by simp [hm]), hclose,
    List.getElem?_append_left (by simpa using hlt)]
  exact List.getElem?_set_self (by simpa using hlt)

/-- Witness for C3 on the concrete fixture: row m0 (arrival at 10) is
closed at time 20, which is not before its arrival. -/
theorem c3_departure_not_before_arrival_witness :
    m0.arrival_time ≤ 20 ∧
    ∃ i : Nat, db0.movements[i]? = some m0 ∧
      (log_movement db0 mc0 20).1.movements[i]? =
        some { m0 with departure_time := some 20 } :=
  c3_departure_not_before_arrival db0 mc0 20 (by decide) m0 (by decide)

/-- Claim C10: when log_movement closes a prior open row it mutates only
that one row's departure_time: the matched row keeps its id, elevator_id,
floors and arrival_time, and every other pre-existing row is untouched,
even if several open rows exist for the elevator. -/
theorem c10_close_frame_effect (db : DB) (mc : MovementCreate) (now : Nat) :
    ∀ m, db_movement_match db.movements mc.elevator_id = some m →
      ∃ i : Nat, db.movements[i]? = some m ∧
        (log_movement db mc now).1.movements[i]? =
          some { m with departure_time := some now } ∧
        ∀ j, j ≠ i → j < db.movements.length →
          (log_movement db mc now).1.movements[j]? = db.movements[j]? := by
  intro m hm
  obtain ⟨i, hi, _, hclose⟩ := close_first_open_of_match_some now hm
  obtain ⟨hlt, _⟩ := List.getElem?_eq_some_iff.mp hi
  have hmv : (log_movement db mc now).1.movements =
      db.movements.set i { m with departure_time := some now } ++
        [(log_movement db mc now).2] := by
    rw [log_movement_movements, if_pos (by simp [hm]), hclose]
  refine ⟨i, hi, ?_, ?_⟩
  · rw [hmv, List.getElem?_append_left (by simpa using hlt)]
    exact List.getElem?_set_self (by simpa using hlt)
  · intro j hji hjlen
    rw [hmv, List.getElem?_append_left (by simpa using hjlen),
      List.getElem?_set_ne (Ne.symm hji)]

/-- Witness for C10 on the concrete fixture: closing m0 changes only its
departure_time; all other positions of the table are unchanged. -/
theorem c10_close_frame_effect_witness :
    ∃ i : Nat, db0.movements[i]? = some m0 ∧
      (log_movement db0 mc0 20).1.movements[i]? =
        some { m0 with departure_time := some 20 } ∧
      ∀ j, j ≠ i → j < db0.movements.length →
        (log_movement db0 mc0 20).1.movements[j]? = db0.movements[j]? :=
  c10_close_frame_effect db0 mc0 20 m0 (by decide)

/-! Helper lemmas about get_ml_data's two output lists. -/

theorem get_ml_data_fst (db : DB) :
    (get_ml_data db).1 =
      (ml_keys (db.movements.filter is_closed)).map
        (training_entry_of (db.movements.filter is_closed)) :=
  rfl

theorem get_ml_data_snd (db : DB) :
    (get_ml_data db).2 =
      (ml_keys (db.movements.filter is_closed)).map
        (elapsed_entry_of (db.movements.filter is_closed)) :=
  rfl

theorem elapsed_entry_of_eq_of_rep {rows : List Movement} {k : Int × Int}
    {m : Movement} (hrep : ml_representative rows k = some m) :
    elapsed_entry_of rows k =
      { start_floor := m.start_floor
        end_floor := m.end_floor
        elevator_id := m.elevator_id
        elapsed_time_secs := elapsed_of m } := by
  unfold elapsed_entry_of
  rw [hrep]

/-- Every key of ml_keys has a row of rows in its group, so its
representative exists and belongs to the group. -/
theorem ml_representative_of_mem_keys {rows : List Movement} {k : Int × Int}
    (hk : k ∈ ml_keys rows) :
    ∃ m, ml_representative rows k = some m ∧ m ∈ rows ∧ floor_pair m = k := by
  have hmap : k ∈ rows.map floor_pair := List.mem_dedup.mp hk
  obtain ⟨m1, hm1, hm1k⟩ := List.mem_map.mp hmap
  have hmem : m1 ∈ rows.filter (in_group k) :=
    List.mem_filter.mpr ⟨hm1, (in_group_iff k m1).mpr hm1k⟩
  cases hrep : (rows.filter (in_group k)).head? with
  | none =>
    exact absurd (List.head?_eq_none_iff.mp hrep) (List.ne_nil_of_mem hmem)
  | some m =>
    have hmmem : m ∈ rows.filter (in_group k) := List.mem_of_mem_head? hrep
    obtain ⟨hmrows, hmgrp⟩ := List.mem_filter.mp hmmem
    exact ⟨m, hrep, hmrows, (in_group_iff k m).mp hmgrp⟩

/-- Claim C4: the counts of the training_data list, one per distinct
(start_floor, end_floor) pair, sum to the total number of Movement rows
with a non-null departure_time. -/
theorem c4_training_counts_sum (db : DB) :
    ((get_ml_data db).1.map TrainingEntry.count).sum =
      (db.movements.filter is_closed).length := by
  rw [get_ml_data_fst, List.map_map]
  exact sum_group_counts (ml_keys (db.movements.filter is_closed))
    (db.movements.filter is_closed)
    (List.nodup_dedup _)
    (fun m hm => List.mem_dedup.mpr (List.mem_map_of_mem floor_pair hm))

/-- Claim C5: elapsed_data has exactly one entry per training_data entry,
positionally aligned on the same group key, and each entry's elapsed time
is departure_time minus arrival_time of one representative Movement row of
that group — not a per-row list, an average, or a sum. -/
theorem c5_elapsed_aligned (db : DB) :
    (get_ml_data db).2.length = (get_ml_data db).1.length ∧
    ∀ (i : Nat) (t : TrainingEntry) (e : ElapsedEntry),
      (get_ml_data db).1[i]? = some t → (get_ml_data db).2[i]? = some e →
      e.start_floor = t.requested_floor ∧ e.end_floor = t.destination_floor ∧
      ∃ m, m ∈ db.movements ∧ m.start_floor = t.requested_floor ∧
        m.end_floor = t.destination_floor ∧ e.elevator_id = m.elevator_id ∧
        ∃ d : Nat, m.departure_time = some d ∧
          e.elapsed_time_secs = (d : Int) - (m.arrival_time : Int) := by
  constructor
  · rw [get_ml_data_fst, get_ml_data_snd, List.length_map, List.length_map]
  · intro i t e ht he
    rw [get_ml_data_fst, List.getElem?_map] at ht
    rw [get_ml_data_snd, List.getElem?_map] at he
    cases hk : (ml_keys (db.movements.filter is_closed))[i]? with
    | none =>
      rw [hk] at ht
      simp at ht
    | some k =>
      rw [hk] at ht he
      simp only [Option.map_some', Option.some.injEq] at ht he
      obtain ⟨m, hrep, hmrows, hmk⟩ :=
        ml_representative_of_mem_keys (List.getElem?_mem hk)
      obtain ⟨hmdb, hmclosed⟩ := List.mem_filter.mp hmrows
      have heent := elapsed_entry_of_eq_of_rep hrep
      rw [heent] at he
      obtain ⟨d, hd⟩ : ∃ d : Nat, m.departure_time = some d := by
        unfold is_closed at hmclosed
        cases hmd : m.departure_time with
        | none => rw [hmd] at hmclosed; simp at hmclosed
        | some d => exact ⟨d, rfl⟩
      have hk1 : k.1 = m.start_floor := by
        rw [← hmk]
        rfl
      have hk2 : k.2 = m.end_floor := by
        rw [← hmk]
        rfl
      refine ⟨?_, ?_, m, hmdb, ?_, ?_, ?_, d, hd, ?_⟩
      · rw [← he, ← ht]
        exact hk1.symm ▸ rfl
      · rw [← he, ← ht]
        exact hk2.symm ▸ rfl
      · rw [← ht]
        exact hk1.symm
      · rw [← ht]
        exact hk2.symm
      · rw [← he]
      · rw [← he]
        show elapsed_of m = (d : Int) - (m.arrival_time : Int)
        unfold elapsed_of
        rw [hd]
        rfl

/-- Witness fixture: a store with one closed movement for C5. -/
def db1 : DB :=
  { elevators := [{ id := 1, name := "A", location := "Lobby" }],
    movements := [{ id := 1, elevator_id := 1, start_floor := 1, end_floor := 5,
                    arrival_time := 10, departure_time := some 13 }] }

/-- Witness for C5 on the concrete fixture: the single group (1, 5) yields
one aligned pair of entries whose elapsed time is 13 - 10 = 3 seconds,
taken from the one closed row. -/
theorem c5_elapsed_aligned_witness :
    ({ start_floor := 1, end_floor := 5, elevator_id := 1,
       elapsed_time_secs := 3 } : ElapsedEntry).start_floor =
      ({ requested_floor := 1, destination_floor := 5, count := 1 } :
        TrainingEntry).requested_floor ∧
    ({ start_floor := 1, end_floor := 5, elevator_id := 1,
       elapsed_time_secs := 3 } : ElapsedEntry).end_floor =
      ({ requested_floor := 1, destination_floor := 5, count := 1 } :
        TrainingEntry).destination_floor ∧
    ∃ m, m ∈ db1.movements ∧
      m.start_floor =
        ({ requested_floor := 1, destination_floor := 5, count := 1 } :
          TrainingEntry).requested_floor ∧
      m.end_floor =
        ({ requested_floor := 1, destination_floor := 5, count := 1 } :
          TrainingEntry).destination_floor ∧
      ({ start_floor := 1, end_floor := 5, elevator_id := 1,
         elapsed_time_secs := 3 } : ElapsedEntry).elevator_id = m.elevator_id ∧
      ∃ d : Nat, m.departure_time = some d ∧
        ({ start_floor := 1, end_floor := 5, elevator_id := 1,
           elapsed_time_secs := 3 } : ElapsedEntry).elapsed_time_secs =
          (d : Int) - (m.arrival_time : Int) :=
  (c5_elapsed_aligned db1).2 0
    { requested_floor := 1, destination_floor := 5, count := 1 }
    { start_floor := 1, end_floor := 5, elevator_id := 1, elapsed_time_secs := 3 }
    (by decide) (by decide)

/-- Claim C6: GET /resting_elevators returns exactly the Movement rows
with null departure_time — every open row is in the result and every
result row is open; the handler applies no time-threshold filter (it is a
function of the store alone, with no time parameter). -/
theorem c6_resting_exactly_open (db : DB) :
    ∀ m : Movement, m ∈ get_resting_elevators db ↔
      m ∈ db.movements ∧ m.departure_time = none := by
  intro m
  unfold get_resting_elevators
  simp [List.mem_filter]

/-- Claim C7: GET /movements/{elevator_id} returns exactly the Movement
rows with the requested elevator_id, and an empty list — not an error —
when no row matches. -/
theorem c7_movements_filtered_by_elevator (db : DB) (eid : Int) :
    (∀ m : Movement, m ∈ list_movements_for_elevator db eid ↔
      m ∈ db.movements ∧ m.elevator_id = eid) ∧
    ((∀ m ∈ db.movements, m.elevator_id ≠ eid) →
      list_movements_for_elevator db eid = []) := by
  constructor
  · intro m
    unfold list_movements_for_elevator
    simp [List.mem_filter]
  · intro h
    unfold list_movements_for_elevator
    apply List.filter_eq_nil_iff.mpr
    intro m hm
    simp [h m hm]

/-- Witness for C7 on the concrete fixture: elevator 5 has no movements in
db0, and the listing is the empty list rather than an error. -/
theorem c7_movements_filtered_by_elevator_witness :
    list_movements_for_elevator db0 5 = [] :=
  (c7_movements_filtered_by_elevator db0 5).2 (by decide)

/-- Claim C8: log_movement performs no referential existence check on
elevator_id: even when no Elevator row carries that id, the movement is
inserted and returned exactly as for a valid reference, and the result
does not depend on the elevators table at all. -/
theorem c8_no_referential_check (db : DB) (mc : MovementCreate) (now : Nat)
    (_hno : ∀ e ∈ db.elevators, e.id ≠ mc.elevator_id) :
    ((log_movement db mc now).2.elevator_id = mc.elevator_id ∧
     (log_movement db mc now).1.movements.length = db.movements.length + 1 ∧
     (log_movement db mc now).1.movements[db.movements.length]? =
       some (log_movement db mc now).2) ∧
    (∀ es : List Elevator,
      (log_movement { db with elevators := es } mc now).1.movements =
        (log_movement db mc now).1.movements ∧
      (log_movement { db with elevators := es } mc now).2 =
        (log_movement db mc now).2) :=
  ⟨⟨rfl, log_movement_length db mc now, log_movement_snoc db mc now⟩,
    fun _ => ⟨rfl, rfl⟩⟩

/-- Witness fixture: a store whose only elevator has id 2, so mc0's
elevator_id 1 references no existing elevator. -/
def db2 : DB :=
  { elevators := [{ id := 2, name := "B", location := "Annex" }],
    movements := [] }

/-- Witness for C8 on the concrete fixture: logging a movement for the
nonexistent elevator 1 still inserts and returns the row. -/
theorem c8_no_referential_check_witness :
    ((log_movement db2 mc0 20).2.elevator_id = mc0.elevator_id ∧
     (log_movement db2 mc0 20).1.movements.length = db2.movements.length + 1 ∧
     (log_movement db2 mc0 20).1.movements[db2.movements.length]? =
       some (log_movement db2 mc0 20).2) ∧
    (∀ es : List Elevator,
      (log_movement { db2 with elevators := es } mc0 20).1.movements =
        (log_movement db2 mc0 20).1.movements ∧
      (log_movement { db2 with elevators := es } mc0 20).2 =
        (log_movement db2 mc0 20).2) :=
  c8_no_referential_check db2 mc0 20 (by decide)

/-- Claim C9: a request dispatched through the get_db dependency closes
its database session on every exit path — both when the handler body
returns a response and when it raises. -/
theorem c9_session_closed_on_all_paths {ε α : Type}
    (handler : SessionHandle → Except ε α) :
    ((run_with_db handler).2).closed = true := by
  unfold run_with_db
  cases h : handler { closed := false } <;> simp [h]

-- Sanity checks of the embedding on the example scenario of spec §8.
example :
    (log_movement { elevators := [{ id := 1, name := "A", location := "Lobby" }],
                    movements := [] }
      { elevator_id := 1, start_floor := 1, end_floor := 5, departure_time := none } 10).2
    = { id := 1, elevator_id := 1, start_floor := 1, end_floor := 5,
        arrival_time := 10, departure_time := none } := by decide

example :
    (log_movement { elevators := [{ id := 1, name := "A", location := "Lobby" }],
                    movements := [{ id := 1, elevator_id := 1, start_floor := 1, end_floor := 5,
                                    arrival_time := 10, departure_time := none }] }
      { elevator_id := 1, start_floor := 5, end_floor := 2, departure_time := none } 20).1.movements
    = [{ id := 1, elevator_id := 1, start_floor := 1, end_floor := 5,
         arrival_time := 10, departure_time := some 20 },
       { id := 2, elevator_id := 1, start_floor := 5, end_floor := 2,
         arrival_time := 20, departure_time := none }] := by decide
